import Mathlib

/-!
Verification of the zenoh transport utility module (`zenohutils.py`) of the
uProtocol zenoh transport: a shallow embedding of the key mapper, the
message-type classifier, the priority mapping table and the attribute
envelope codec, together with theorems settling the specification claims.

Machine integers are modelled as `Nat` (the Python values are unbounded
ints read from protobuf fields); byte strings are `List Nat`; fallible
operations return `Except`.
-/

namespace ZenohUtils

/-- Wire-format version constant `UATTRIBUTE_VERSION = 1` from the source. -/
def UATTRIBUTE_VERSION : Nat := 1

/-- External constant `UriFactory.WILDCARD_ENTITY_ID` (0xFFFF) of uprotocol. -/
def WILDCARD_ENTITY_ID : Nat := 0xFFFF

/-- External constant `UriFactory.WILDCARD_ENTITY_VERSION` (0xFF) of uprotocol. -/
def WILDCARD_ENTITY_VERSION : Nat := 0xFF

/-- External constant `UriFactory.WILDCARD_RESOURCE_ID` (0xFFFF) of uprotocol. -/
def WILDCARD_RESOURCE_ID : Nat := 0xFFFF

/-- The status codes the module uses (`UCode.INVALID_ARGUMENT`, `UCode.INTERNAL`). -/
inductive UCode where
  | INVALID_ARGUMENT
  | INTERNAL
deriving DecidableEq, Repr

/-- The structured error raised by the module (`UStatusError.from_code_message`):
a status code together with a human-readable message. -/
structure UStatusError where
  code : UCode
  message : String
deriving DecidableEq, Repr

/-- The addressing tuple `UUri` (protobuf message): authority name, entity id,
entity major version, resource id.  Proto3 scalar defaults are `""` and `0`. -/
structure UUri where
  authority_name : String
  ue_id : Nat
  ue_version_major : Nat
  resource_id : Nat
deriving DecidableEq, Repr

/-- The all-default protobuf message `UUri()`. -/
def UUri.default : UUri := ⟨"", 0, 0, 0⟩

instance {ε α : Type} [DecidableEq ε] [DecidableEq α] : DecidableEq (Except ε α) :=
  fun x y =>
    match x, y with
    | .ok a, .ok b =>
      if h : a = b then .isTrue (by rw [h])
      else .isFalse (fun hc => h (Except.ok.inj hc))
    | .error a, .error b =>
      if h : a = b then .isTrue (by rw [h])
      else .isFalse (fun hc => h (Except.error.inj hc))
    | .ok _, .error _ => .isFalse (fun hc => Except.noConfusion hc)
    | .error _, .ok _ => .isFalse (fun hc => Except.noConfusion hc)

/-! ## Hexadecimal rendering

Python `f"{n:X}"`: uppercase hexadecimal digits, no padding, `"0"` for zero. -/

/-- One uppercase hexadecimal digit. -/
def hexDigit (n : Nat) : Char :=
  if n < 10 then Char.ofNat (48 + n) else Char.ofNat (55 + n)

/-- Digits of `n` in base 16, most significant first; `[]` for zero.  Fuel-
indexed structural recursion (fuel `n` always suffices) so that it evaluates
by kernel reduction. -/
def toHexCoreAux : Nat → Nat → List Char
  | 0, _ => []
  | fuel + 1, n =>
    if n = 0 then [] else toHexCoreAux fuel (n / 16) ++ [hexDigit (n % 16)]

/-- Digits of `n` in base 16, most significant first; `[]` for zero. -/
def toHexCore (n : Nat) : List Char := toHexCoreAux n n

/-- Python `f"{n:X}"`: uppercase unpadded hexadecimal representation of `n`. -/
def toHexUpper (n : Nat) : String :=
  if n = 0 then "0" else String.mk (toHexCore n)

/-- Numeric value of an uppercase hexadecimal digit (inverse of `hexDigit`). -/
def hexVal (c : Char) : Nat :=
  if c.toNat ≥ 65 then c.toNat - 55 else c.toNat - 48

/-! ## Key mapper (`uri_to_zenoh_key`, `to_zenoh_key_string`) -/

/-- Embedding of `ZenohUtils.uri_to_zenoh_key`: renders one `UUri` into the
four-segment zenoh key fragment `authority/ue_id/ue_version_major/resource_id`,
substituting the caller-supplied authority when the URI's is empty and `*`
for each field equal to its wildcard sentinel. -/
def uri_to_zenoh_key (authority_name : String) (uri : UUri) : String :=
  let authority := if uri.authority_name = "" then authority_name else uri.authority_name
  let ue_id := if uri.ue_id = WILDCARD_ENTITY_ID then "*" else toHexUpper uri.ue_id
  let ue_version_major :=
    if uri.ue_version_major = WILDCARD_ENTITY_VERSION then "*" else toHexUpper uri.ue_version_major
  let resource_id :=
    if uri.resource_id = WILDCARD_RESOURCE_ID then "*" else toHexUpper uri.resource_id
  authority ++ "/" ++ ue_id ++ "/" ++ ue_version_major ++ "/" ++ resource_id

/-- Embedding of `ZenohUtils.to_zenoh_key_string`: the full key for a source
and an optional destination.  The Python condition `dst_uri and dst_uri != UUri()`
is: a destination was passed and it differs from the all-default message;
otherwise the literal fallback string `"\x7b\x7d/\x7b\x7d/\x7b\x7d/\x7b\x7d"` is used
(the source writes it as a plain string literal, four brace-pair segments). -/
def to_zenoh_key_string (authority_name : String) (src_uri : UUri) (dst_uri : Option UUri) : String :=
  let src := uri_to_zenoh_key authority_name src_uri
  let dst :=
    match dst_uri with
    | some d => if d ≠ UUri.default then uri_to_zenoh_key authority_name d
                else "\x7b\x7d/\x7b\x7d/\x7b\x7d/\x7b\x7d"
    | none => "\x7b\x7d/\x7b\x7d/\x7b\x7d/\x7b\x7d"
  "up/" ++ src ++ "/" ++ dst

/-- Rendering of one numeric field per the spec's words: uppercase unpadded
hex unless the field equals that field's wildcard sentinel, then literal `*`. -/
def renderField (v sentinel : Nat) : String :=
  if v = sentinel then "*" else toHexUpper v

/-- Spec-worded single-address key segment (`address_to_key_segment` of the
spec): authority is the address's authority name when non-empty else the
default; the four segments join with `/` in the stated order. -/
def address_to_key_segment (default_authority : String) (addr : UUri) : String :=
  let authority := if addr.authority_name ≠ "" then addr.authority_name else default_authority
  String.intercalate "/"
    [authority,
     renderField addr.ue_id WILDCARD_ENTITY_ID,
     renderField addr.ue_version_major WILDCARD_ENTITY_VERSION,
     renderField addr.resource_id WILDCARD_RESOURCE_ID]

/-! ## Priority mapping (`map_zenoh_priority`) -/

/-- The addressing scheme's priority enumeration (uprotocol `UPriority`). -/
inductive UPriority where
  | UPRIORITY_UNSPECIFIED
  | UPRIORITY_CS0
  | UPRIORITY_CS1
  | UPRIORITY_CS2
  | UPRIORITY_CS3
  | UPRIORITY_CS4
  | UPRIORITY_CS5
  | UPRIORITY_CS6
deriving DecidableEq, Repr

/-- The fabric's priority enumeration (zenoh `Priority`). -/
inductive Priority where
  | REAL_TIME
  | INTERACTIVE_HIGH
  | INTERACTIVE_LOW
  | DATA_HIGH
  | DATA
  | DATA_LOW
  | BACKGROUND
deriving DecidableEq, Repr

/-- Embedding of `ZenohUtils.map_zenoh_priority`: the fixed lookup table from
`UPriority` to zenoh `Priority`. -/
def map_zenoh_priority : UPriority → Priority
  | .UPRIORITY_CS0 => .BACKGROUND
  | .UPRIORITY_CS1 => .DATA_LOW
  | .UPRIORITY_CS2 => .DATA
  | .UPRIORITY_CS3 => .DATA_HIGH
  | .UPRIORITY_CS4 => .INTERACTIVE_LOW
  | .UPRIORITY_CS5 => .INTERACTIVE_HIGH
  | .UPRIORITY_CS6 => .REAL_TIME
  | .UPRIORITY_UNSPECIFIED => .DATA_LOW

/-! ## Message-type classifier (`get_listener_message_type`) -/

/-- The four message-kind flags of `MessageFlag` (an `IntFlag` bitset). -/
def PUBLISH : Nat := 1
/-- Bit flag for the Notification kind. -/
def NOTIFICATION : Nat := 2
/-- Bit flag for the Request kind. -/
def REQUEST : Nat := 4
/-- Bit flag for the Response kind. -/
def RESPONSE : Nat := 8

/-- Kind `m` is a member of the flag set `f` when the corresponding bit is set. -/
def hasFlag (f m : Nat) : Prop := Nat.land f m ≠ 0

instance (f m : Nat) : Decidable (hasFlag f m) := by
  unfold hasFlag; infer_instance

/-- Python `src_resource in range(1, 0x7FFF)`. -/
def inRpcRange (r : Nat) : Prop := 1 ≤ r ∧ r < 0x7FFF

/-- Python `src_resource in range(0x8000, 0xFFFE)`. -/
def inNonRpcRange (r : Nat) : Prop := 0x8000 ≤ r ∧ r < 0xFFFE

instance (r : Nat) : Decidable (inRpcRange r) := by unfold inRpcRange; infer_instance
instance (r : Nat) : Decidable (inNonRpcRange r) := by unfold inNonRpcRange; infer_instance

/-- The source's four-disjunct guard for `MessageFlag.NOTIFICATION`. -/
def notificationCond (rs rd : Nat) : Prop :=
  (inNonRpcRange rs ∧ rd = 0) ∨ (inNonRpcRange rs ∧ rd = WILDCARD_RESOURCE_ID) ∨
  (rs = WILDCARD_RESOURCE_ID ∧ rd = 0) ∨
  (rs = WILDCARD_RESOURCE_ID ∧ rd = WILDCARD_RESOURCE_ID)

/-- The source's four-disjunct guard for `MessageFlag.REQUEST`. -/
def requestCond (rs rd : Nat) : Prop :=
  (rs = 0 ∧ inRpcRange rd) ∨ (rs = 0 ∧ rd = WILDCARD_RESOURCE_ID) ∨
  (rs = WILDCARD_RESOURCE_ID ∧ inRpcRange rd) ∨
  (rs = WILDCARD_RESOURCE_ID ∧ rd = WILDCARD_RESOURCE_ID)

/-- The source's four-disjunct guard for `MessageFlag.RESPONSE`. -/
def responseCond (rs rd : Nat) : Prop :=
  (inRpcRange rs ∧ rd = 0) ∨ (inRpcRange rs ∧ rd = WILDCARD_RESOURCE_ID) ∨
  (rs = WILDCARD_RESOURCE_ID ∧ rd = 0) ∨
  (rs = WILDCARD_RESOURCE_ID ∧ rd = WILDCARD_RESOURCE_ID)

/-- The source's guard for `MessageFlag.PUBLISH` in the destination-supplied case. -/
def publishCond (rs rd : Nat) : Prop :=
  rd = WILDCARD_RESOURCE_ID ∧ (inNonRpcRange rs ∨ rs = WILDCARD_RESOURCE_ID)

instance (rs rd : Nat) : Decidable (notificationCond rs rd) := by
  unfold notificationCond; infer_instance
instance (rs rd : Nat) : Decidable (requestCond rs rd) := by
  unfold requestCond; infer_instance
instance (rs rd : Nat) : Decidable (responseCond rs rd) := by
  unfold responseCond; infer_instance
instance (rs rd : Nat) : Decidable (publishCond rs rd) := by
  unfold publishCond; infer_instance

/-- Embedding of `ZenohUtils.get_listener_message_type`.  Only the resource
ids of the two URIs are read by the source, so the embedding takes them
directly; `sink = none` is Python `sink_uuri = None` (a present-but-empty
protobuf message is still truthy in Python, hence still the `some` branch).
The accumulated bitset is checked against zero at the end, raising an
INTERNAL-code `UStatusError` exactly when no kind matched. -/
def get_listener_message_type (src_resource : Nat) (sink : Option Nat) :
    Except UStatusError Nat :=
  let flag : Nat :=
    match sink with
    | some dst_resource =>
      let f1 := if notificationCond src_resource dst_resource
                then Nat.lor 0 NOTIFICATION else 0
      let f2 := if requestCond src_resource dst_resource
                then Nat.lor f1 REQUEST else f1
      let f3 := if responseCond src_resource dst_resource
                then Nat.lor f2 RESPONSE else f2
      if publishCond src_resource dst_resource then Nat.lor f3 PUBLISH else f3
    | none =>
      if inNonRpcRange src_resource ∨ src_resource = WILDCARD_RESOURCE_ID
      then Nat.lor 0 PUBLISH else 0
  if flag = 0 then
    .error ⟨UCode.INTERNAL, "Wrong combination of source UUri and sink UUri"⟩
  else .ok flag

/-- Spec-worded `Notification` predicate:
`(Rs ∈ NONRPC ∨ Rs = WILDCARD) ∧ (Rd = 0 ∨ Rd = WILDCARD)`. -/
def specNotification (rs rd : Nat) : Prop :=
  (inNonRpcRange rs ∨ rs = WILDCARD_RESOURCE_ID) ∧ (rd = 0 ∨ rd = WILDCARD_RESOURCE_ID)

/-- Spec-worded `Request` predicate:
`(Rs = 0 ∨ Rs = WILDCARD) ∧ (Rd ∈ RPC ∨ Rd = WILDCARD)`. -/
def specRequest (rs rd : Nat) : Prop :=
  (rs = 0 ∨ rs = WILDCARD_RESOURCE_ID) ∧ (inRpcRange rd ∨ rd = WILDCARD_RESOURCE_ID)

/-- Spec-worded `Response` predicate:
`(Rs ∈ RPC ∨ Rs = WILDCARD) ∧ (Rd = 0 ∨ Rd = WILDCARD)`. -/
def specResponse (rs rd : Nat) : Prop :=
  (inRpcRange rs ∨ rs = WILDCARD_RESOURCE_ID) ∧ (rd = 0 ∨ rd = WILDCARD_RESOURCE_ID)

/-- Spec-worded `Publish` predicate (destination-supplied case):
`Rd = WILDCARD ∧ (Rs ∈ NONRPC ∨ Rs = WILDCARD)`. -/
def specPublish (rs rd : Nat) : Prop :=
  rd = WILDCARD_RESOURCE_ID ∧ (inNonRpcRange rs ∨ rs = WILDCARD_RESOURCE_ID)

instance (rs rd : Nat) : Decidable (specNotification rs rd) := by
  unfold specNotification; infer_instance
instance (rs rd : Nat) : Decidable (specRequest rs rd) := by
  unfold specRequest; infer_instance
instance (rs rd : Nat) : Decidable (specResponse rs rd) := by
  unfold specResponse; infer_instance
instance (rs rd : Nat) : Decidable (specPublish rs rd) := by
  unfold specPublish; infer_instance

/-! ## Attribute envelope codec
(`uattributes_to_attachment`, `attachment_to_uattributes`)

The attributes structure and its binary (de)serialization are external
(protobuf `UAttributes`); the codec is therefore parameterised by the
external `serialize` and `parse` functions, which the source calls as
`SerializeToString` / `ParseFromString`. -/

/-- Python `value.to_bytes(length, byteorder='little')`. -/
def toBytesLE (value length : Nat) : List Nat :=
  (List.range length).map fun i => value / 256 ^ i % 256

/-- Python `int.from_bytes(bytes(chunk), byteorder='big')`. -/
def intFromBytesBE (chunk : List Nat) : Nat :=
  chunk.foldl (fun acc b => acc * 256 + b) 0

/-- Embedding of `ZenohUtils.uattributes_to_attachment`: the ordered pair of
byte chunks `[version_bytes, uattributes_bytes]` where `version_bytes` is the
one-byte little-endian encoding of `UATTRIBUTE_VERSION`. -/
def uattributes_to_attachment (serialize : α → List Nat) (uattributes : α) :
    List (List Nat) :=
  let version_bytes := toBytesLE UATTRIBUTE_VERSION 1
  let uattributes_bytes := serialize uattributes
  [version_bytes, uattributes_bytes]

/-- The catch-all `except Exception` wrapper of `attachment_to_uattributes`:
every error raised inside the `try` block (including the explicitly raised
`UStatusError`s, whose `str` is their message) is re-raised as an
INVALID_ARGUMENT `UStatusError` with the wrapping message. -/
def wrapDecodeError (s : String) : UStatusError :=
  ⟨UCode.INVALID_ARGUMENT, "Failed to convert Attachment to UAttributes: " ++ s⟩

/-- Embedding of `ZenohUtils.attachment_to_uattributes`, with the attachment
already deserialized to its list of byte chunks.  Mirrors the source's
control flow: the length check, the big-endian version check on chunk 0, the
`attachment_bytes[1]` access (an `IndexError` with message
"list index out of range" when there is no second chunk, caught by the
catch-all), the emptiness check on chunk 1, and the external parse. -/
def attachment_to_uattributes (parse : List Nat → Except String α)
    (attachment_bytes : List (List Nat)) : Except UStatusError α :=
  match attachment_bytes with
  | [] => .error (wrapDecodeError "Unable to get the UAttributes version")
  | chunk0 :: rest =>
    let version := intFromBytesBE chunk0
    if version ≠ UATTRIBUTE_VERSION then
      .error (wrapDecodeError ("UAttributes version is " ++ toString version ++
        " (should be " ++ toString UATTRIBUTE_VERSION ++ ")"))
    else
      match rest with
      | [] => .error (wrapDecodeError "list index out of range")
      | chunk1 :: _ =>
        if chunk1 = [] then
          .error (wrapDecodeError "Unable to get the UAttributes")
        else
          match parse chunk1 with
          | .ok uattributes => .ok uattributes
          | .error e => .error (wrapDecodeError e)

/-! ## A concrete model of the external attributes codec

Modelled from the spec: the external attributes structure ("an Attributes
type with a binary serialize/parse pair", out of scope of the module) is the
protobuf message `UAttributes`.  Proto3 scalar fields whose value is the
default (`0`) are omitted from the wire, so the all-default message
serializes to the empty byte string.  The model keeps two representative
varint fields, `priority` (field 5, tag byte 0x28) and `ttl` (field 6, tag
byte 0x30), with faithful base-128 varint encoding. -/

/-- Base-128 varint encoding (protobuf), least-significant group first.
Fuel-indexed structural recursion (fuel `n` always suffices). -/
def varintEncodeAux : Nat → Nat → List Nat
  | 0, n => [n]
  | fuel + 1, n =>
    if n < 128 then [n] else (n % 128 + 128) :: varintEncodeAux fuel (n / 128)

/-- Base-128 varint encoding (protobuf), least-significant group first. -/
def varintEncode (n : Nat) : List Nat := varintEncodeAux n n

/-- Base-128 varint decoding; returns the value and the remaining bytes. -/
def varintDecode : List Nat → Option (Nat × List Nat)
  | [] => none
  | b :: rest =>
    if b < 128 then some (b, rest)
    else
      match varintDecode rest with
      | some (v, rest2) => some (b - 128 + 128 * v, rest2)
      | none => none

/-- Two representative fields of the external protobuf attributes message. -/
structure UAttributesM where
  priority : Nat
  ttl : Nat
deriving DecidableEq, Repr

/-- Protobuf serialization of the model message: default-valued fields are
omitted from the wire (so `⟨0, 0⟩` serializes to `[]`). -/
def serializeUAttributesM (a : UAttributesM) : List Nat :=
  (if a.priority = 0 then [] else 0x28 :: varintEncode a.priority) ++
  (if a.ttl = 0 then [] else 0x30 :: varintEncode a.ttl)

/-- Field-by-field protobuf parse loop for the model message (fuel-indexed
so that it evaluates by kernel reduction). -/
def parseFieldsAux : Nat → List Nat → UAttributesM → Option UAttributesM
  | _, [], acc => some acc
  | 0, _ :: _, _ => none
  | fuel + 1, tag :: rest, acc =>
    if tag = 0x28 then
      match varintDecode rest with
      | some (v, rest2) => parseFieldsAux fuel rest2 { acc with priority := v }
      | none => none
    else if tag = 0x30 then
      match varintDecode rest with
      | some (v, rest2) => parseFieldsAux fuel rest2 { acc with ttl := v }
      | none => none
    else none

/-- Protobuf parse of the model message (`ParseFromString`): starts from the
all-default message and applies the fields found on the wire. -/
def parseUAttributesM (l : List Nat) : Except String UAttributesM :=
  match parseFieldsAux l.length l ⟨0, 0⟩ with
  | some a => .ok a
  | none => .error "Error parsing message"

/-! ## Helper lemmas -/

theorem notificationCond_iff (rs rd : Nat) :
    notificationCond rs rd ↔ specNotification rs rd := by
  unfold notificationCond specNotification; tauto

theorem requestCond_iff (rs rd : Nat) :
    requestCond rs rd ↔ specRequest rs rd := by
  unfold requestCond specRequest; tauto

theorem responseCond_iff (rs rd : Nat) :
    responseCond rs rd ↔ specResponse rs rd := by
  unfold responseCond specResponse; tauto

theorem publishCond_iff (rs rd : Nat) :
    publishCond rs rd ↔ specPublish rs rd := by
  unfold publishCond specPublish; tauto

theorem specPublish_imp_specNotification (rs rd : Nat) :
    specPublish rs rd → specNotification rs rd := by
  unfold specPublish specNotification; tauto

theorem classifier_error_of_not_conds (rs rd : Nat)
    (h1 : ¬notificationCond rs rd) (h2 : ¬requestCond rs rd)
    (h3 : ¬responseCond rs rd) (h4 : ¬publishCond rs rd) :
    get_listener_message_type rs (some rd) =
      .error ⟨UCode.INTERNAL, "Wrong combination of source UUri and sink UUri"⟩ := by
  simp [get_listener_message_type, h1, h2, h3, h4]

/-! ## Claim theorems -/

/-- Claim C1: with a destination supplied, the classifier returns exactly the
set of kinds whose spec predicate holds (Notification, Request, Response,
Publish as stated in the spec), and fails with an INTERNAL-code error exactly
when all four predicates are false. -/
theorem classifier_sink_exact_spec (rs rd : Nat) :
    match get_listener_message_type rs (some rd) with
    | .ok f =>
        (hasFlag f NOTIFICATION ↔ specNotification rs rd) ∧
        (hasFlag f REQUEST ↔ specRequest rs rd) ∧
        (hasFlag f RESPONSE ↔ specResponse rs rd) ∧
        (hasFlag f PUBLISH ↔ specPublish rs rd) ∧
        (specNotification rs rd ∨ specRequest rs rd ∨ specResponse rs rd ∨ specPublish rs rd)
    | .error e =>
        e.code = UCode.INTERNAL ∧
        ¬specNotification rs rd ∧ ¬specRequest rs rd ∧
        ¬specResponse rs rd ∧ ¬specPublish rs rd := by
  by_cases h1 : notificationCond rs rd <;> by_cases h2 : requestCond rs rd <;>
    by_cases h3 : responseCond rs rd <;> by_cases h4 : publishCond rs rd <;>
    simp_all +decide [get_listener_message_type, hasFlag,
      NOTIFICATION, REQUEST, RESPONSE, PUBLISH,
      notificationCond_iff, requestCond_iff, responseCond_iff, publishCond_iff]

/-- Claim C1 witness: at source resource id 0x8001 and destination 0 the
classifier succeeds and the returned set contains Notification. -/
theorem classifier_sink_exact_spec_witness :
    get_listener_message_type 0x8001 (some 0) = .ok 2 ∧ hasFlag 2 NOTIFICATION := by
  have h := classifier_sink_exact_spec 0x8001 0
  refine ⟨by decide, ?_⟩
  rw [show get_listener_message_type 0x8001 (some 0) = .ok 2 from by decide] at h
  exact h.1.mpr (by decide)

/-- Claim C2: with no destination supplied, the classifier returns exactly
the singleton set containing Publish when the source resource id is in
NONRPC or is the wildcard, and otherwise fails with the INTERNAL-code
invalid-combination error. -/
theorem classifier_no_sink_spec (rs : Nat) :
    match get_listener_message_type rs none with
    | .ok f =>
        f = PUBLISH ∧ hasFlag f PUBLISH ∧ ¬hasFlag f NOTIFICATION ∧
        ¬hasFlag f REQUEST ∧ ¬hasFlag f RESPONSE ∧
        (inNonRpcRange rs ∨ rs = WILDCARD_RESOURCE_ID)
    | .error e =>
        e = ⟨UCode.INTERNAL, "Wrong combination of source UUri and sink UUri"⟩ ∧
        ¬(inNonRpcRange rs ∨ rs = WILDCARD_RESOURCE_ID) := by
  by_cases h : inNonRpcRange rs ∨ rs = WILDCARD_RESOURCE_ID <;>
    simp_all +decide [get_listener_message_type, hasFlag,
      NOTIFICATION, REQUEST, RESPONSE, PUBLISH]

/-- Claim C2 witness: source resource id 0x8001 with no destination yields
exactly the Publish singleton. -/
theorem classifier_no_sink_spec_witness :
    get_listener_message_type 0x8001 none = .ok 1 ∧
    hasFlag 1 PUBLISH ∧ ¬hasFlag 1 NOTIFICATION := by
  have h := classifier_no_sink_spec 0x8001
  rw [show get_listener_message_type 0x8001 none = .ok 1 from by decide] at h
  exact ⟨by decide, h.2.1, h.2.2.1⟩

/-- Claim C7: the classifier's numeric ranges are exactly RPC = [1, 0x7FFE]
and NONRPC = [0x8000, 0xFFFD] (both inclusive); 0xFFFE belongs to neither
range, differs from the wildcard, and on either side with any counterpart
never satisfies any of the four classification guards, so the classifier
always fails there. -/
theorem resource_ranges_spec :
    (∀ r, inRpcRange r ↔ 1 ≤ r ∧ r ≤ 0x7FFE) ∧
    (∀ r, inNonRpcRange r ↔ 0x8000 ≤ r ∧ r ≤ 0xFFFD) ∧
    ¬inRpcRange 0xFFFE ∧ ¬inNonRpcRange 0xFFFE ∧
    (0xFFFE : Nat) ≠ WILDCARD_RESOURCE_ID ∧
    (∀ rd, ¬notificationCond 0xFFFE rd ∧ ¬requestCond 0xFFFE rd ∧
           ¬responseCond 0xFFFE rd ∧ ¬publishCond 0xFFFE rd) ∧
    (∀ rs, ¬notificationCond rs 0xFFFE ∧ ¬requestCond rs 0xFFFE ∧
           ¬responseCond rs 0xFFFE ∧ ¬publishCond rs 0xFFFE) ∧
    (∀ rd, ∃ e, get_listener_message_type 0xFFFE (some rd) = .error e) ∧
    (∀ rs, ∃ e, get_listener_message_type rs (some 0xFFFE) = .error e) ∧
    (∃ e, get_listener_message_type 0xFFFE none = .error e) := by
  have hsrc : ∀ rd, ¬notificationCond 0xFFFE rd ∧ ¬requestCond 0xFFFE rd ∧
      ¬responseCond 0xFFFE rd ∧ ¬publishCond 0xFFFE rd := by
    intro rd
    unfold notificationCond requestCond responseCond publishCond
      inRpcRange inNonRpcRange WILDCARD_RESOURCE_ID
    omega
  have hdst : ∀ rs, ¬notificationCond rs 0xFFFE ∧ ¬requestCond rs 0xFFFE ∧
      ¬responseCond rs 0xFFFE ∧ ¬publishCond rs 0xFFFE := by
    intro rs
    unfold notificationCond requestCond responseCond publishCond
      inRpcRange inNonRpcRange WILDCARD_RESOURCE_ID
    omega
  refine ⟨?_, ?_, by decide, by decide, by decide, hsrc, hdst, ?_, ?_, ?_⟩
  · intro r; unfold inRpcRange; omega
  · intro r; unfold inNonRpcRange; omega
  · intro rd
    obtain ⟨a1, a2, a3, a4⟩ := hsrc rd
    exact ⟨_, classifier_error_of_not_conds _ _ a1 a2 a3 a4⟩
  · intro rs
    obtain ⟨a1, a2, a3, a4⟩ := hdst rs
    exact ⟨_, classifier_error_of_not_conds _ _ a1 a2 a3 a4⟩
  · exact ⟨⟨UCode.INTERNAL, "Wrong combination of source UUri and sink UUri"⟩, by decide⟩

/-- Claim C9: the priority table maps CS0..CS6 and Unspecified exactly as
specified; totality over the eight defined inputs is the totality of the
Lean function. -/
theorem map_zenoh_priority_table :
    map_zenoh_priority .UPRIORITY_CS0 = .BACKGROUND ∧
    map_zenoh_priority .UPRIORITY_CS1 = .DATA_LOW ∧
    map_zenoh_priority .UPRIORITY_CS2 = .DATA ∧
    map_zenoh_priority .UPRIORITY_CS3 = .DATA_HIGH ∧
    map_zenoh_priority .UPRIORITY_CS4 = .INTERACTIVE_LOW ∧
    map_zenoh_priority .UPRIORITY_CS5 = .INTERACTIVE_HIGH ∧
    map_zenoh_priority .UPRIORITY_CS6 = .REAL_TIME ∧
    map_zenoh_priority .UPRIORITY_UNSPECIFIED = .DATA_LOW := by
  decide

/-- Claim C10: in the destination-supplied case, whenever the returned kind
set contains Publish it also contains Notification. -/
theorem publish_implies_notification (rs rd f : Nat)
    (h : get_listener_message_type rs (some rd) = .ok f)
    (hp : hasFlag f PUBLISH) : hasFlag f NOTIFICATION := by
  by_cases h1 : notificationCond rs rd <;> by_cases h2 : requestCond rs rd <;>
    by_cases h3 : responseCond rs rd <;> by_cases h4 : publishCond rs rd <;>
    simp_all +decide [get_listener_message_type, hasFlag,
      NOTIFICATION, REQUEST, RESPONSE, PUBLISH,
      notificationCond_iff, requestCond_iff, responseCond_iff, publishCond_iff] <;>
    first
      | exact absurd (specPublish_imp_specNotification rs rd h4) h1
      | (subst h; revert hp; decide)

/-- Claim C10 witness: at source 0x8000 and destination wildcard the result
is `ok 3`, which contains Publish, and the theorem yields Notification. -/
theorem publish_implies_notification_witness :
    get_listener_message_type 0x8000 (some 0xFFFF) = .ok 3 ∧
    hasFlag 3 PUBLISH ∧ hasFlag 3 NOTIFICATION :=
  ⟨by decide, by decide,
   publish_implies_notification 0x8000 0xFFFF 3 (by decide) (by decide)⟩

theorem hexVal_hexDigit (m : Nat) (h : m < 16) : hexVal (hexDigit m) = m := by
  interval_cases m <;> decide

theorem toHexCoreAux_foldback :
    ∀ fuel n, n ≤ fuel →
      (toHexCoreAux fuel n).foldl (fun a c => 16 * a + hexVal c) 0 = n := by
  intro fuel
  induction fuel with
  | zero =>
    intro n h
    have h0 : n = 0 := by omega
    subst h0
    simp [toHexCoreAux]
  | succ fuel ih =>
    intro n h
    by_cases h0 : n = 0
    · subst h0; simp [toHexCoreAux]
    · rw [show toHexCoreAux (fuel + 1) n =
            toHexCoreAux fuel (n / 16) ++ [hexDigit (n % 16)] from by
          simp [toHexCoreAux, h0]]
      rw [List.foldl_append]
      simp only [List.foldl_cons, List.foldl_nil]
      rw [ih (n / 16) (by omega), hexVal_hexDigit (n % 16) (by omega)]
      omega

theorem toHexUpper_foldback (n : Nat) :
    (toHexUpper n).data.foldl (fun a c => 16 * a + hexVal c) 0 = n := by
  unfold toHexUpper
  by_cases h : n = 0
  · subst h; decide
  · simp only [h, if_false, toHexCore]
    exact toHexCoreAux_foldback n n le_rfl

/-- Claim C6: the single-address key-segment operation of the source equals
the spec-worded rendering (authority from the address when non-empty else the
default; each numeric field as uppercase unpadded hex unless equal to its
wildcard sentinel, then `*`; the four segments joined by `/` in the stated
order); and the hexadecimal rendering is faithful: folding the hex digits of
`toHexUpper n` back in base 16 recovers `n`. -/
theorem uri_to_zenoh_key_matches_spec :
    (∀ (d : String) (u : UUri), uri_to_zenoh_key d u = address_to_key_segment d u) ∧
    (∀ n, (toHexUpper n).data.foldl (fun a c => 16 * a + hexVal c) 0 = n) := by
  refine ⟨?_, toHexUpper_foldback⟩
  intro d u
  unfold uri_to_zenoh_key address_to_key_segment renderField
  by_cases h : u.authority_name = "" <;>
    simp [h, String.intercalate, String.intercalate.go]

/-- Claim C3 counterexample: at default authority `vehicle1`, source
`⟨"", 0x12, 3, 0x8001⟩` and no destination, the source code renders the
destination segment as the brace literal, not as four `*` segments. -/
theorem to_zenoh_key_default_dst_cex :
    to_zenoh_key_string "vehicle1" ⟨"", 0x12, 3, 0x8001⟩ none =
      "up/vehicle1/12/3/8001/\x7b\x7d/\x7b\x7d/\x7b\x7d/\x7b\x7d" ∧
    to_zenoh_key_string "vehicle1" ⟨"", 0x12, 3, 0x8001⟩ none ≠
      "up/vehicle1/12/3/8001/*/*/*/*" := by
  decide

/-- Claim C3 as amended: when the destination is absent or equals the
zero-value/empty address, the destination segment is the fixed brace literal
of four `\x7b\x7d` segments (the placeholder the uProtocol zenoh key format uses
for a missing sink), and the result is `up/` ++ src segment ++ `/` ++ that
literal. -/
theorem to_zenoh_key_default_dst (authority : String) (src : UUri)
    (dst : Option UUri) (h : dst = none ∨ dst = some UUri.default) :
    to_zenoh_key_string authority src dst =
      "up/" ++ uri_to_zenoh_key authority src ++ "/" ++
        "\x7b\x7d/\x7b\x7d/\x7b\x7d/\x7b\x7d" := by
  rcases h with h | h <;> subst h <;> simp [to_zenoh_key_string]

/-- Claim C3 witness: the amended statement applied at a concrete absent
destination. -/
theorem to_zenoh_key_default_dst_witness :
    ((none : Option UUri) = none ∨ (none : Option UUri) = some UUri.default) ∧
    to_zenoh_key_string "vehicle1" ⟨"", 2, 3, 4⟩ none =
      "up/" ++ uri_to_zenoh_key "vehicle1" ⟨"", 2, 3, 4⟩ ++ "/" ++
        "\x7b\x7d/\x7b\x7d/\x7b\x7d/\x7b\x7d" :=
  ⟨Or.inl rfl, to_zenoh_key_default_dst "vehicle1" ⟨"", 2, 3, 4⟩ none (Or.inl rfl)⟩

/-- Claim C8: the encoder returns the ordered two-chunk sequence whose first
chunk is the single byte `UATTRIBUTE_VERSION = 1` and whose second chunk is
the serialized attributes bytes. -/
theorem uattributes_to_attachment_spec {α : Type} (serialize : α → List Nat)
    (a : α) :
    uattributes_to_attachment serialize a = [[UATTRIBUTE_VERSION], serialize a] ∧
    (uattributes_to_attachment serialize a).length = 2 ∧
    toBytesLE UATTRIBUTE_VERSION 1 = [1] :=
  ⟨rfl, rfl, rfl⟩

/-- Claim C4: the decoder fails with an INVALID_ARGUMENT-code structured
error exactly when the chunk list is empty, or the first chunk's numeric
value differs from the supported version constant 1, or there is no second
chunk or it is empty, or the second chunk fails to parse (in which case the
error wraps the underlying parse failure's message); on success it returns
the parsed attributes value. -/
theorem attachment_to_uattributes_spec {α : Type}
    (parse : List Nat → Except String α) (chunks : List (List Nat)) :
    ((∃ e, attachment_to_uattributes parse chunks = .error e ∧
           e.code = UCode.INVALID_ARGUMENT) ↔
      (chunks.length < 1 ∨
       intFromBytesBE (chunks.getD 0 []) ≠ UATTRIBUTE_VERSION ∨
       chunks.length < 2 ∨ chunks.getD 1 [] = [] ∨
       (∃ m, parse (chunks.getD 1 []) = .error m))) ∧
    (∀ a, attachment_to_uattributes parse chunks = .ok a ↔
      (2 ≤ chunks.length ∧
       intFromBytesBE (chunks.getD 0 []) = UATTRIBUTE_VERSION ∧
       chunks.getD 1 [] ≠ [] ∧ parse (chunks.getD 1 []) = .ok a)) ∧
    (∀ c0 c1 rest m, chunks = c0 :: c1 :: rest →
       intFromBytesBE c0 = UATTRIBUTE_VERSION → c1 ≠ [] →
       parse c1 = .error m →
       attachment_to_uattributes parse chunks = .error (wrapDecodeError m)) := by
  rcases chunks with _ | ⟨c0, _ | ⟨c1, rest⟩⟩
  · refine ⟨?_, ?_, ?_⟩
    · simp [attachment_to_uattributes, wrapDecodeError]
    · intro a; simp [attachment_to_uattributes]
    · intro c0 c1 rest m h; exact absurd h (by simp)
  · by_cases hv : intFromBytesBE c0 = UATTRIBUTE_VERSION
    · refine ⟨?_, ?_, ?_⟩
      · simp [attachment_to_uattributes, wrapDecodeError, hv]
      · intro a; simp [attachment_to_uattributes, hv]
      · intro c0' c1' rest' m h; exact absurd h (by simp)
    · refine ⟨?_, ?_, ?_⟩
      · simp [attachment_to_uattributes, wrapDecodeError, hv]
      · intro a; simp [attachment_to_uattributes, hv]
      · intro c0' c1' rest' m h; exact absurd h (by simp)
  · by_cases hv : intFromBytesBE c0 = UATTRIBUTE_VERSION
    · by_cases hemp : c1 = []
      · refine ⟨?_, ?_, ?_⟩
        · simp [attachment_to_uattributes, wrapDecodeError, hv, hemp]
        · intro a; simp [attachment_to_uattributes, hv, hemp]
        · intro c0' c1' rest' m h hv' hne hp
          obtain ⟨rfl, rfl, rfl⟩ : c0 = c0' ∧ c1 = c1' ∧ rest = rest' := by
            simpa using h
          exact absurd hemp hne
      · rcases hp : parse c1 with m | a0
        · refine ⟨?_, ?_, ?_⟩
          · simp [attachment_to_uattributes, wrapDecodeError, hv, hemp, hp]
          · intro a; simp [attachment_to_uattributes, hv, hemp, hp]
          · intro c0' c1' rest' m' h hv' hne hp'
            obtain ⟨rfl, rfl, rfl⟩ : c0 = c0' ∧ c1 = c1' ∧ rest = rest' := by
              simpa using h
            rw [hp] at hp'
            obtain rfl : m = m' := by simpa using hp'
            simp [attachment_to_uattributes, hv, hemp, hp]
        · refine ⟨?_, ?_, ?_⟩
          · simp [attachment_to_uattributes, wrapDecodeError, hv, hemp, hp]
          · intro a
            simp [attachment_to_uattributes, hv, hemp, hp]
          · intro c0' c1' rest' m' h hv' hne hp'
            obtain ⟨rfl, rfl, rfl⟩ : c0 = c0' ∧ c1 = c1' ∧ rest = rest' := by
              simpa using h
            rw [hp] at hp'
            exact absurd hp' (by simp)
    · refine ⟨?_, ?_, ?_⟩
      · simp [attachment_to_uattributes, wrapDecodeError, hv]
      · intro a; simp [attachment_to_uattributes, hv]
      · intro c0' c1' rest' m h hv' hne hp
        obtain ⟨rfl, rfl, rfl⟩ : c0 = c0' ∧ c1 = c1' ∧ rest = rest' := by
          simpa using h
        exact absurd hv' hv

/-- Claim C4 witness: the theorem applied to the concrete model codec and the
empty chunk list, which fails with an INVALID_ARGUMENT-code error. -/
theorem attachment_to_uattributes_spec_witness :
    ∃ e, attachment_to_uattributes parseUAttributesM [] = .error e ∧
         e.code = UCode.INVALID_ARGUMENT :=
  (attachment_to_uattributes_spec parseUAttributesM []).1.mpr (Or.inl (by decide))

/-- Claim C5 counterexample: the unconditional round-trip law fails at the
all-default attributes value.  The external protobuf serializer omits fields
holding their default value, so the all-default message serializes to the
empty byte string (model `⟨0, 0⟩`, whose wire form is `[]` and which the
model parser round-trips); the decoder then rejects the empty second chunk
of the envelope with an INVALID_ARGUMENT error instead of returning the
original value. -/
theorem envelope_roundtrip_cex :
    serializeUAttributesM ⟨0, 0⟩ = [] ∧
    parseUAttributesM (serializeUAttributesM ⟨0, 0⟩) = .ok ⟨0, 0⟩ ∧
    attachment_to_uattributes parseUAttributesM
      (uattributes_to_attachment serializeUAttributesM (⟨0, 0⟩ : UAttributesM)) =
      .error (wrapDecodeError "Unable to get the UAttributes") := by
  decide

/-- Claim C5 as amended: for every attributes value whose serialized form is
non-empty (given that the external parser round-trips the external
serializer), encoding into the two-chunk envelope and then decoding it
returns the original attributes value. -/
theorem envelope_roundtrip {α : Type} (serialize : α → List Nat)
    (parse : List Nat → Except String α) (a : α)
    (hparse : parse (serialize a) = .ok a) (hne : serialize a ≠ []) :
    attachment_to_uattributes parse (uattributes_to_attachment serialize a) =
      .ok a := by
  have hv : intFromBytesBE (toBytesLE UATTRIBUTE_VERSION 1) = UATTRIBUTE_VERSION := by
    decide
  simp [uattributes_to_attachment, attachment_to_uattributes, hv, hne, hparse]

/-- Claim C5 witness: the amended round-trip at the concrete model value
`⟨3, 5⟩`, whose wire form is non-empty. -/
theorem envelope_roundtrip_witness :
    parseUAttributesM (serializeUAttributesM ⟨3, 5⟩) = .ok ⟨3, 5⟩ ∧
    serializeUAttributesM ⟨3, 5⟩ ≠ [] ∧
    attachment_to_uattributes parseUAttributesM
      (uattributes_to_attachment serializeUAttributesM (⟨3, 5⟩ : UAttributesM)) =
      .ok ⟨3, 5⟩ :=
  ⟨by decide, by decide,
   envelope_roundtrip serializeUAttributesM parseUAttributesM ⟨3, 5⟩
     (by decide) (by decide)⟩

end ZenohUtils
